import Mathlib

/-!
Shallow embedding of the `music_seen_player` browser audio player
(`src/unnamed/part_000`, the React `App` component, together with
`src/components/Visualizer.tsx`).

Modelling conventions:
* React `useState` variables become fields of `AppState`; each event handler
  becomes a pure state-transition function.
* `crypto.randomUUID()` is a fresh-identifier supply; it is modelled by the
  monotone counter `idCounter` (each call returns the counter and bumps it).
* `URL.createObjectURL` / `URL.revokeObjectURL` are modelled by the counter
  `urlCounter` together with the multiset `outstandingUrls` of created and
  not-yet-revoked object URLs; `audioRef.current.src` is `audioSrc`.
* The `<audio>` element always exists once the component is mounted, so the
  `if (!audioRef.current) return;` guards are dropped (they never fire).
* `audio.play()` may be rejected by the browser (autoplay policy); its outcome
  is the explicit parameter `playOk` of `playTrack`.
* `Math.floor(Math.random() * n)` in shuffle mode is the explicit parameter
  `randomIndex`.
* JavaScript `%` on numbers is truncated remainder (sign of the dividend),
  i.e. `Int.tmod`.  JavaScript `-0` behaves like `0` for `< 0` comparison and
  array indexing, so `Int` carries no information loss on the paths used here.
-/

/-- A browser `File` handle: only the fields this program reads. -/
structure JsFile where
  name : String
  type : String
deriving Repr, DecidableEq

/-- `Track` from `types.ts`: `{ file, id, name }`.  The `file` field is kept as
its observable parts (`fileName`, `fileType`); `id` is the modelled UUID. -/
structure Track where
  fileName : String
  fileType : String
  id : Nat
  name : String
deriving Repr, DecidableEq

/-- The React component state of `App` (the `useState` variables that the
claims touch), plus the modelled browser resources. -/
structure AppState where
  playlist : List Track
  currentTrackIndex : Int
  isPlaying : Bool
  isShuffle : Bool
  /-- `audioRef.current.src`: the object URL currently assigned, if any. -/
  audioSrc : Option Nat
  /-- The track whose file the current `audioSrc` object URL was created
  from (the loaded track). -/
  loadedTrack : Option Track
  /-- Object URLs created by `URL.createObjectURL` and not yet revoked. -/
  outstandingUrls : List Nat
  urlCounter : Nat
  idCounter : Nat
  aiAnalysis : String
  isAnalyzing : Bool
deriving Repr, DecidableEq

/-- `file.name.replace(/\.[^/.]+$/, "")` on the character list: the regex
matches a final `'.'` followed by one or more characters none of which is
`'.'` or `'/'`; the match (if any) is deleted. -/
def dropExtChars : List Char → List Char
  | [] => []
  | c :: cs =>
    if c = '.' ∧ cs ≠ [] ∧ cs.all (fun d => d ≠ '.' ∧ d ≠ '/') then []
    else c :: dropExtChars cs

/-- `name.replace(/\.[^/.]+$/, "")`. -/
def stripExt (s : String) : String :=
  String.mk (dropExtChars s.data)

/-- `file.type.startsWith('audio/')`. -/
def isAudioType (f : JsFile) : Bool :=
  f.type.startsWith "audio/"

/-- `files.map(file => ({ file, id: crypto.randomUUID(), name:
file.name.replace(/\.[^/.]+$/, "") }))` — the per-element fresh UUID is the
threaded counter `idStart`. -/
def mkTracks (idStart : Nat) : List JsFile → List Track
  | [] => []
  | f :: fs =>
    { fileName := f.name, fileType := f.type, id := idStart,
      name := stripExt f.name } :: mkTracks (idStart + 1) fs

/-- `handleDrop` (lines 57-79): on a drop with at least one file, filter to
audio-typed files, build tracks, append to the playlist.  (`preventDefault`,
`stopPropagation` and the empty inner `if` have no state effect.) -/
def handleDrop (s : AppState) (files : List JsFile) : AppState :=
  if files.length > 0 then
    let newFiles := files.filter isAudioType
    let newTracks := mkTracks s.idCounter newFiles
    { s with playlist := s.playlist ++ newTracks,
             idCounter := s.idCounter + newFiles.length }
  else s

/-- `handleFileSelect` (lines 86-97): same ingestion as `handleDrop`, from the
file picker. -/
def handleFileSelect (s : AppState) (files : List JsFile) : AppState :=
  if files.length > 0 then
    let newFiles := files.filter isAudioType
    let newTracks := mkTracks s.idCounter newFiles
    { s with playlist := s.playlist ++ newTracks,
             idCounter := s.idCounter + newFiles.length }
  else s

/-- `playTrack(index)` (lines 100-123).  `initAudioContext` touches only the
audio-graph refs, which no claim observes, so it is not modelled.  If the
index is out of range the call is a no-op; otherwise the previous object URL
(if any) is revoked, a fresh one is created and assigned, the current index is
set, and playback is attempted (`playOk` is the outcome of
`audioRef.current.play()`). -/
def playTrack (s : AppState) (playOk : Bool) (index : Int) : AppState :=
  if index < 0 ∨ (s.playlist.length : Int) ≤ index then s
  else
    let track := s.playlist[index.toNat]?
    let urls :=
      match s.audioSrc with
      | some u => s.outstandingUrls.erase u
      | none => s.outstandingUrls
    let objectUrl := s.urlCounter
    { s with
      audioSrc := some objectUrl,
      loadedTrack := track,
      outstandingUrls := objectUrl :: urls,
      urlCounter := s.urlCounter + 1,
      currentTrackIndex := index,
      isPlaying := playOk }

/-- `togglePlay` (lines 125-141): with no track selected and a non-empty
playlist, play the first track; otherwise pause/play the element and flip the
flag (the `play()` promise here is not awaited, so the flag flips regardless
of the outcome). -/
def togglePlay (s : AppState) (playOk : Bool) : AppState :=
  if s.currentTrackIndex = -1 ∧ s.playlist.length > 0 then
    playTrack s playOk 0
  else
    { s with isPlaying := ¬ s.isPlaying }

/-- `nextTrack` (lines 143-152). -/
def nextTrack (s : AppState) (playOk : Bool) (randomIndex : Nat) : AppState :=
  if s.playlist.length = 0 then s
  else
    let nextIndex : Int :=
      if s.isShuffle then (randomIndex : Int)
      else (s.currentTrackIndex + 1).tmod (s.playlist.length : Int)
    playTrack s playOk nextIndex

/-- `prevTrack` (lines 154-158). -/
def prevTrack (s : AppState) (playOk : Bool) : AppState :=
  if s.playlist.length = 0 then s
  else
    let prevIndex : Int :=
      (s.currentTrackIndex - 1 + (s.playlist.length : Int)).tmod
        (s.playlist.length : Int)
    playTrack s playOk prevIndex

/-- `removeTrack(e, index)` (lines 160-175): splice the entry out; if it was
the active track, stop playback and clear the index; if it was before the
active index, shift the index down by one.  Note: no `URL.revokeObjectURL`
call appears in this function, so `audioSrc` and `outstandingUrls` are
untouched. -/
def removeTrack (s : AppState) (index : Nat) : AppState :=
  let s₁ := { s with playlist := s.playlist.eraseIdx index }
  if (index : Int) = s.currentTrackIndex then
    { s₁ with isPlaying := false, currentTrackIndex := -1 }
  else if (index : Int) < s.currentTrackIndex then
    { s₁ with currentTrackIndex := s.currentTrackIndex - 1 }
  else s₁

/-- The environment of `analyzePlaylist`: the credential
(`process.env.API_KEY`; `none` models a missing or empty key, both falsy) and
the outcome of `ai.models.generateContent`. -/
structure AiEnv where
  apiKey : Option String
  callResult : Except String String
deriving Repr

/-- The fallback text set when `process.env.API_KEY` is missing (line 214). -/
def apiKeyMissingMsg : String := "API Key Missing. Cannot analyze."

/-- The fallback text set when the AI call throws (line 232). -/
def connectionErrorMsg : String := "无法连接到 AI 大脑进行分析 (Connection Error)."

/-- `analyzePlaylist` (lines 206-236).  Returns the new state and whether a
network call (`generateContent`) was performed. -/
def analyzePlaylist (s : AppState) (env : AiEnv) : AppState × Bool :=
  if s.playlist.length = 0 then (s, false)
  else
    match env.apiKey with
    | none =>
      ({ s with aiAnalysis := apiKeyMissingMsg, isAnalyzing := false }, false)
    | some _ =>
      match env.callResult with
      | Except.ok text =>
        ({ s with aiAnalysis := text, isAnalyzing := false }, true)
      | Except.error _ =>
        ({ s with aiAnalysis := connectionErrorMsg, isAnalyzing := false },
         true)

/-! ### Visualizer (`src/components/Visualizer.tsx` and `initAudioContext`) -/

/-- `analyser.fftSize = 256` (part_000 line 41). -/
def fftSize : Nat := 256

/-- `analyser.frequencyBinCount` is `fftSize / 2` by the Web Audio spec. -/
def frequencyBinCount : Nat := fftSize / 2

/-- `const bars = 120` (Visualizer line 40). -/
def bars : Nat := 120

/-- `const step = Math.floor(bufferLength / bars)` with
`bufferLength = analyser.frequencyBinCount` (Visualizer lines 19, 41). -/
def vstep : Nat := frequencyBinCount / bars

/-- The inner loop of `draw` (lines 45-49): `value` accumulates
`dataArray[i * step + j]` for `j < step`, then is divided by `step`. -/
def barValue (data : Nat → ℚ) (i : Nat) : ℚ :=
  ((List.range vstep).foldl (fun acc j => acc + data (i * vstep + j)) 0) / vstep

/-- `const barHeight = (value / 255) * 100` (line 51). -/
def barHeight (data : Nat → ℚ) (i : Nat) : ℚ :=
  barValue data i / 255 * 100

/-- `const hue = (i / bars) * 360` (line 68). -/
def hue (i : Nat) : ℚ := (i : ℚ) / bars * 360

/-- `const saturation = 80 + (value / 255) * 20` (line 69). -/
def saturationOf (data : Nat → ℚ) (i : Nat) : ℚ :=
  80 + barValue data i / 255 * 20

/-- `const lightness = 50 + (value / 255) * 10` (line 70). -/
def lightnessOf (data : Nat → ℚ) (i : Nat) : ℚ :=
  50 + barValue data i / 255 * 10

/-- Bin `b` of the frequency snapshot is read by the bar loop: it is
`i * step + j` for some bar `i < bars` and offset `j < step`. -/
def binRead (b : Nat) : Prop :=
  ∃ i < bars, ∃ j < vstep, b = i * vstep + j

/-! ### Helper lemmas -/

theorem playTrack_of_inRange (s : AppState) (ok : Bool) {index : Int}
    (h0 : 0 ≤ index) (hlt : index < (s.playlist.length : Int)) :
    playTrack s ok index =
      { s with
        audioSrc := some s.urlCounter,
        loadedTrack := s.playlist[index.toNat]?,
        outstandingUrls := s.urlCounter ::
          (match s.audioSrc with
           | some u => s.outstandingUrls.erase u
           | none => s.outstandingUrls),
        urlCounter := s.urlCounter + 1,
        currentTrackIndex := index,
        isPlaying := ok } := by
  unfold playTrack
  rw [if_neg (by omega)]

theorem tmod_add_one_wrap (i n : Int) (h0 : 0 ≤ i) (hlt : i < n) :
    (i + 1).tmod n = if i = n - 1 then 0 else i + 1 := by
  rw [Int.tmod_eq_emod (by omega) (by omega)]
  by_cases h : i = n - 1
  · simp [h, Int.emod_self]
  · rw [if_neg h, Int.emod_eq_of_lt (by omega) (by omega)]

theorem tmod_sub_one_wrap (i n : Int) (h0 : 0 ≤ i) (hlt : i < n) :
    (i - 1 + n).tmod n = if i = 0 then n - 1 else i - 1 := by
  rw [Int.tmod_eq_emod (by omega) (by omega)]
  by_cases h : i = 0
  · rw [if_pos h, h]
    rw [Int.emod_eq_of_lt (by omega) (by omega)]
    omega
  · rw [if_neg h]
    have hsplit : i - 1 + n = i - 1 + n * 1 := by ring
    rw [hsplit, Int.add_mul_emod_self_left,
      Int.emod_eq_of_lt (by omega) (by omega)]

theorem nextTrack_noShuffle (s : AppState) (ok : Bool) (r : Nat)
    (hsh : s.isShuffle = false) (hn : s.playlist.length ≠ 0) :
    nextTrack s ok r =
      playTrack s ok ((s.currentTrackIndex + 1).tmod (s.playlist.length : Int)) := by
  unfold nextTrack
  rw [if_neg hn]
  simp [hsh]

theorem prevTrack_nonempty (s : AppState) (ok : Bool)
    (hn : s.playlist.length ≠ 0) :
    prevTrack s ok =
      playTrack s ok
        ((s.currentTrackIndex - 1 + (s.playlist.length : Int)).tmod
          (s.playlist.length : Int)) := by
  unfold prevTrack
  rw [if_neg hn]

theorem currentTrackIndex_playTrack (s : AppState) (ok : Bool) {index : Int}
    (h0 : 0 ≤ index) (hlt : index < (s.playlist.length : Int)) :
    (playTrack s ok index).currentTrackIndex = index := by
  rw [playTrack_of_inRange s ok h0 hlt]

/-! ### Claims -/

/-- C1: for every non-empty playlist with shuffle off and a valid active
index, `nextTrack` advances the active index by one with wraparound (from the
last index it returns to 0), and `prevTrack` steps back by one with
wraparound (from index 0 it returns to the last index). -/
theorem c1_next_prev_wraparound (s : AppState) (ok ok' : Bool) (r : Nat)
    (hsh : s.isShuffle = false)
    (h0 : 0 ≤ s.currentTrackIndex)
    (hlt : s.currentTrackIndex < (s.playlist.length : Int)) :
    (nextTrack s ok r).currentTrackIndex =
      (if s.currentTrackIndex = (s.playlist.length : Int) - 1 then 0
       else s.currentTrackIndex + 1) ∧
    (prevTrack s ok').currentTrackIndex =
      (if s.currentTrackIndex = 0 then (s.playlist.length : Int) - 1
       else s.currentTrackIndex - 1) := by
  have hn : s.playlist.length ≠ 0 := by omega
  constructor
  · rw [nextTrack_noShuffle s ok r hsh hn, tmod_add_one_wrap _ _ h0 hlt]
    by_cases hc : s.currentTrackIndex = (s.playlist.length : Int) - 1
    · rw [if_pos hc]
      exact currentTrackIndex_playTrack s ok le_rfl (by omega)
    · rw [if_neg hc]
      exact currentTrackIndex_playTrack s ok (by omega) (by omega)
  · rw [prevTrack_nonempty s ok' hn, tmod_sub_one_wrap _ _ h0 hlt]
    by_cases hc : s.currentTrackIndex = 0
    · rw [if_pos hc]
      exact currentTrackIndex_playTrack s ok' (by omega) (by omega)
    · rw [if_neg hc]
      exact currentTrackIndex_playTrack s ok' (by omega) (by omega)

def sampleTrack (n : Nat) : Track :=
  { fileName := "t.mp3", fileType := "audio/mpeg", id := n, name := "t" }

def sampleState : AppState :=
  { playlist := [sampleTrack 0, sampleTrack 1, sampleTrack 2],
    currentTrackIndex := 2, isPlaying := true, isShuffle := false,
    audioSrc := some 5, loadedTrack := some (sampleTrack 2),
    outstandingUrls := [5], urlCounter := 6, idCounter := 3,
    aiAnalysis := "", isAnalyzing := false }

/-- C1 witness: on the concrete three-track state with active index 2 (the
last index), `next` returns to index 0 and `previous` steps back to 1. -/
theorem c1_witness :
    sampleState.isShuffle = false ∧
    0 ≤ sampleState.currentTrackIndex ∧
    sampleState.currentTrackIndex < (sampleState.playlist.length : Int) ∧
    ((nextTrack sampleState true 0).currentTrackIndex =
      (if sampleState.currentTrackIndex =
          (sampleState.playlist.length : Int) - 1 then 0
       else sampleState.currentTrackIndex + 1) ∧
     (prevTrack sampleState true).currentTrackIndex =
      (if sampleState.currentTrackIndex = 0 then
          (sampleState.playlist.length : Int) - 1
       else sampleState.currentTrackIndex - 1)) :=
  ⟨rfl, by decide, by decide,
   c1_next_prev_wraparound sampleState true true 0 rfl (by decide) (by decide)⟩

/-- C2: removing the track at the active index leaves playback stopped
(`isPlaying = false`) and the active index unset (the `-1` sentinel). -/
theorem c2_remove_active_stops (s : AppState) (index : Nat)
    (_hv : index < s.playlist.length)
    (ha : (index : Int) = s.currentTrackIndex) :
    (removeTrack s index).isPlaying = false ∧
    (removeTrack s index).currentTrackIndex = -1 := by
  unfold removeTrack
  rw [if_pos ha]
  exact ⟨rfl, rfl⟩

/-- C2 witness: removing index 2 (the active index) of the concrete
three-track state stops playback and clears the index. -/
theorem c2_witness :
    2 < sampleState.playlist.length ∧
    ((2 : Nat) : Int) = sampleState.currentTrackIndex ∧
    ((removeTrack sampleState 2).isPlaying = false ∧
     (removeTrack sampleState 2).currentTrackIndex = -1) :=
  ⟨by decide, by decide, c2_remove_active_stops sampleState 2 (by decide) (by decide)⟩

/-- C3: removing a track at an index strictly below the active index
decrements the active index by exactly one, leaves the playing flag
untouched, and the decremented index still points at the same logical track
in the spliced playlist. -/
theorem c3_remove_before_shifts (s : AppState) (index : Nat)
    (hlt : s.currentTrackIndex < (s.playlist.length : Int))
    (hidx : (index : Int) < s.currentTrackIndex) :
    (removeTrack s index).currentTrackIndex = s.currentTrackIndex - 1 ∧
    (removeTrack s index).isPlaying = s.isPlaying ∧
    (removeTrack s index).playlist[(s.currentTrackIndex - 1).toNat]? =
      s.playlist[s.currentTrackIndex.toNat]? := by
  unfold removeTrack
  rw [if_neg (by omega), if_pos hidx]
  refine ⟨rfl, rfl, ?_⟩
  show (s.playlist.eraseIdx index)[(s.currentTrackIndex - 1).toNat]? =
    s.playlist[s.currentTrackIndex.toNat]?
  have h1 : (s.currentTrackIndex - 1).toNat = s.currentTrackIndex.toNat - 1 := by
    omega
  rw [h1, List.eraseIdx_eq_take_drop_succ, List.getElem?_append_right]
  · rw [List.getElem?_drop, List.length_take]
    congr 1
    omega
  · rw [List.length_take]
    omega

/-- The spec's own example state for C3: playlist `[A, B, C]`, active index 1. -/
def exampleStateABC : AppState :=
  { sampleState with currentTrackIndex := 1 }

/-- C3 witness: the spec's own example — playlist `[A, B, C]`, active index 1;
`remove(0)` yields active index 0 pointing at the same track `B`, playback
unaffected. -/
theorem c3_witness :
    exampleStateABC.currentTrackIndex < (exampleStateABC.playlist.length : Int) ∧
    ((0 : Nat) : Int) < exampleStateABC.currentTrackIndex ∧
    ((removeTrack exampleStateABC 0).currentTrackIndex =
        exampleStateABC.currentTrackIndex - 1 ∧
     (removeTrack exampleStateABC 0).isPlaying = exampleStateABC.isPlaying ∧
     (removeTrack exampleStateABC 0).playlist[
        (exampleStateABC.currentTrackIndex - 1).toNat]? =
      exampleStateABC.playlist[exampleStateABC.currentTrackIndex.toNat]?) :=
  ⟨by decide, by decide,
   c3_remove_before_shifts exampleStateABC 0 (by decide) (by decide)⟩

theorem mkTracks_map_file (c : Nat) (fs : List JsFile) :
    (mkTracks c fs).map (fun t => (t.fileName, t.fileType)) =
      fs.map (fun f => (f.name, f.type)) := by
  induction fs generalizing c with
  | nil => rfl
  | cons f fs ih => simp [mkTracks, ih]

theorem mkTracks_names (c : Nat) (fs : List JsFile) :
    ∀ t ∈ mkTracks c fs, t.name = stripExt t.fileName := by
  induction fs generalizing c with
  | nil => intro t ht; cases ht
  | cons f fs ih =>
    intro t ht
    rcases List.mem_cons.mp ht with rfl | ht
    · rfl
    · exact ih (c + 1) t ht

theorem mkTracks_ids (c : Nat) (fs : List JsFile) :
    (mkTracks c fs).map Track.id = List.range' c fs.length := by
  induction fs generalizing c with
  | nil => rfl
  | cons f fs ih => simp [mkTracks, ih, List.range'_succ]

theorem mkTracks_ids_lb (c : Nat) (fs : List JsFile) :
    ∀ t ∈ mkTracks c fs, c ≤ t.id := by
  intro t ht
  have : t.id ∈ (mkTracks c fs).map Track.id := List.mem_map_of_mem _ ht
  rw [mkTracks_ids] at this
  exact (List.mem_range'_1.mp this).1

/-- C4: ingesting a non-empty batch of files (drag-and-drop and file picker
behave identically) appends exactly the audio-typed files to the end of the
playlist in their original relative order, each new track carrying a fresh
identifier (pairwise distinct and distinct from every existing track's
identifier) and a display name equal to the filename with its extension
stripped; non-audio files are dropped and nothing is deduplicated. -/
theorem c4_ingest (s : AppState) (files : List JsFile)
    (hne : files ≠ [])
    (hold : ∀ t ∈ s.playlist, t.id < s.idCounter) :
    handleDrop s files = handleFileSelect s files ∧
    (handleFileSelect s files).playlist =
      s.playlist ++ mkTracks s.idCounter (files.filter isAudioType) ∧
    (mkTracks s.idCounter (files.filter isAudioType)).map
        (fun t => (t.fileName, t.fileType)) =
      (files.filter isAudioType).map (fun f => (f.name, f.type)) ∧
    (∀ t ∈ mkTracks s.idCounter (files.filter isAudioType),
        t.name = stripExt t.fileName) ∧
    ((mkTracks s.idCounter (files.filter isAudioType)).map Track.id).Nodup ∧
    (∀ t ∈ mkTracks s.idCounter (files.filter isAudioType),
      ∀ told ∈ s.playlist, t.id ≠ told.id) := by
  have hlen : files.length > 0 := List.length_pos.mpr hne
  refine ⟨rfl, ?_, mkTracks_map_file _ _, mkTracks_names _ _, ?_, ?_⟩
  · unfold handleFileSelect
    rw [if_pos hlen]
  · rw [mkTracks_ids]
    exact List.nodup_range' _ _
  · intro t ht told htold
    have h1 := mkTracks_ids_lb _ _ t ht
    have h2 := hold told htold
    omega

/-- A mixed batch: one audio file and one plain-text file. -/
def mixedBatch : List JsFile :=
  [{ name := "song.mp3", type := "audio/mpeg" },
   { name := "notes.txt", type := "text/plain" }]

/-- C4 witness: ingesting the mixed two-file batch into the concrete state
appends exactly the audio entry, with stripped name and a fresh identifier. -/
theorem c4_witness :
    mixedBatch ≠ [] ∧
    (∀ t ∈ sampleState.playlist, t.id < sampleState.idCounter) ∧
    (handleDrop sampleState mixedBatch = handleFileSelect sampleState mixedBatch ∧
     (handleFileSelect sampleState mixedBatch).playlist =
       sampleState.playlist ++
         mkTracks sampleState.idCounter (mixedBatch.filter isAudioType) ∧
     (mkTracks sampleState.idCounter (mixedBatch.filter isAudioType)).map
         (fun t => (t.fileName, t.fileType)) =
       (mixedBatch.filter isAudioType).map (fun f => (f.name, f.type)) ∧
     (∀ t ∈ mkTracks sampleState.idCounter (mixedBatch.filter isAudioType),
         t.name = stripExt t.fileName) ∧
     ((mkTracks sampleState.idCounter
         (mixedBatch.filter isAudioType)).map Track.id).Nodup ∧
     (∀ t ∈ mkTracks sampleState.idCounter (mixedBatch.filter isAudioType),
       ∀ told ∈ sampleState.playlist, t.id ≠ told.id)) :=
  ⟨by decide, by decide, c4_ingest sampleState mixedBatch (by decide) (by decide)⟩

/-- The spec's transient-URL invariant (section 3): the outstanding object
URLs are exactly the one currently assigned to the audio element, or none —
in particular at most one is outstanding. -/
def UrlInv (s : AppState) : Prop :=
  s.outstandingUrls =
    (match s.audioSrc with
     | some u => [u]
     | none => [])

theorem urlInv_playTrack (s : AppState) (ok : Bool) (i : Int)
    (h : UrlInv s) : UrlInv (playTrack s ok i) := by
  unfold playTrack
  by_cases hg : i < 0 ∨ (s.playlist.length : Int) ≤ i
  · rw [if_pos hg]; exact h
  · rw [if_neg hg]
    unfold UrlInv at h ⊢
    cases hs : s.audioSrc with
    | none => rw [hs] at h; simp [h]
    | some u => rw [hs] at h; simp [h]

/-- C5 counterexample: in the concrete state whose active track is loaded
through object URL `5`, removing that track leaves URL `5` still outstanding
and still assigned to the audio element — the claim that a removed track's
transient playback URL is explicitly released on removal fails here. -/
theorem c5_counterexample :
    (removeTrack sampleState 2).outstandingUrls = [5] ∧
    (removeTrack sampleState 2).audioSrc = some 5 ∧
    ¬ (5 ∉ (removeTrack sampleState 2).outstandingUrls) := by
  refine ⟨by decide, by decide, ?_⟩
  intro hmem
  exact hmem (by decide)

/-- C5 (amended): at most one transient playback URL is outstanding at any
time, and load-and-play releases the previous URL before creating the new one
(the outstanding set collapses to the single fresh URL); but removing a track
does NOT release any URL — `removeTrack` leaves the outstanding URLs and the
audio element's source untouched, so a removed track's URL persists until the
next load-and-play. -/
theorem c5_url_discipline (s : AppState) (ok ok' : Bool) (i : Int)
    (j r : Nat) (h : UrlInv s) :
    s.outstandingUrls.length ≤ 1 ∧
    UrlInv (playTrack s ok i) ∧
    UrlInv (togglePlay s ok) ∧
    UrlInv (nextTrack s ok r) ∧
    UrlInv (prevTrack s ok') ∧
    UrlInv (removeTrack s j) ∧
    (removeTrack s j).outstandingUrls = s.outstandingUrls ∧
    (removeTrack s j).audioSrc = s.audioSrc ∧
    (¬ (i < 0 ∨ (s.playlist.length : Int) ≤ i) →
      (playTrack s ok i).outstandingUrls = [s.urlCounter]) := by
  have hrem : (removeTrack s j).outstandingUrls = s.outstandingUrls ∧
      (removeTrack s j).audioSrc = s.audioSrc := by
    unfold removeTrack
    by_cases h1 : (j : Int) = s.currentTrackIndex
    · rw [if_pos h1]; exact ⟨rfl, rfl⟩
    · rw [if_neg h1]
      by_cases h2 : (j : Int) < s.currentTrackIndex
      · rw [if_pos h2]; exact ⟨rfl, rfl⟩
      · rw [if_neg h2]; exact ⟨rfl, rfl⟩
  refine ⟨?_, urlInv_playTrack s ok i h, ?_, ?_, ?_, ?_, hrem.1, hrem.2, ?_⟩
  · unfold UrlInv at h
    rw [h]
    cases s.audioSrc <;> simp
  · unfold togglePlay
    by_cases hc : s.currentTrackIndex = -1 ∧ s.playlist.length > 0
    · rw [if_pos hc]; exact urlInv_playTrack s ok 0 h
    · rw [if_neg hc]; exact h
  · unfold nextTrack
    by_cases hc : s.playlist.length = 0
    · rw [if_pos hc]; exact h
    · rw [if_neg hc]; exact urlInv_playTrack s ok _ h
  · unfold prevTrack
    by_cases hc : s.playlist.length = 0
    · rw [if_pos hc]; exact h
    · rw [if_neg hc]; exact urlInv_playTrack s ok' _ h
  · unfold UrlInv at h ⊢
    rw [removeTrack] at hrem ⊢
    rw [hrem.1, hrem.2, h]
  · intro hg
    unfold playTrack
    rw [if_neg hg]
    unfold UrlInv at h
    cases hs : s.audioSrc with
    | none => rw [hs] at h; simp [h]
    | some u => rw [hs] at h; simp [h]

/-- C5 witness: the amended discipline instantiated at the concrete state
with one outstanding URL. -/
theorem c5_witness :
    UrlInv sampleState ∧
    (sampleState.outstandingUrls.length ≤ 1 ∧
     UrlInv (playTrack sampleState true 0) ∧
     UrlInv (togglePlay sampleState true) ∧
     UrlInv (nextTrack sampleState true 0) ∧
     UrlInv (prevTrack sampleState false) ∧
     UrlInv (removeTrack sampleState 1) ∧
     (removeTrack sampleState 1).outstandingUrls = sampleState.outstandingUrls ∧
     (removeTrack sampleState 1).audioSrc = sampleState.audioSrc ∧
     (¬ ((0 : Int) < 0 ∨ (sampleState.playlist.length : Int) ≤ 0) →
       (playTrack sampleState true 0).outstandingUrls =
         [sampleState.urlCounter])) :=
  ⟨rfl, c5_url_discipline sampleState true false 0 1 0 rfl⟩

/-- The freshly mounted state: empty playlist, sentinel index, not playing. -/
def emptyState : AppState :=
  { playlist := [], currentTrackIndex := -1, isPlaying := false,
    isShuffle := false, audioSrc := none, loadedTrack := none,
    outstandingUrls := [], urlCounter := 0, idCounter := 0,
    aiAnalysis := "", isAnalyzing := false }

/-- C6 (bug exhibit): from the freshly mounted state — active index `-1`,
playing flag false, empty playlist — `togglePlay` flips the playing flag to
`true` while the active index stays `-1`: the guard only redirects to
`playTrack(0)` when the playlist is non-empty, so with an empty playlist the
flag is flipped unconditionally, breaking the invariant that the `-1`
sentinel implies not playing. -/
theorem c6_togglePlay_empty_breaks_invariant :
    emptyState.currentTrackIndex = -1 ∧
    emptyState.isPlaying = false ∧
    (togglePlay emptyState true).currentTrackIndex = -1 ∧
    (togglePlay emptyState true).isPlaying = true := by
  refine ⟨rfl, rfl, ?_, ?_⟩ <;> decide

/-- A concrete AI environment with a configured key and a successful call. -/
def sampleEnv : AiEnv :=
  { apiKey := some "k", callResult := Except.ok "late-night haze" }

/-- C7: invoking the AI mood summary with an empty playlist performs no
network call and leaves the whole state — in particular the summary text —
unchanged. -/
theorem c7_analyze_empty_noop (s : AppState) (env : AiEnv)
    (h : s.playlist = []) :
    analyzePlaylist s env = (s, false) := by
  unfold analyzePlaylist
  rw [if_pos (by rw [h]; rfl)]

/-- C7 witness: the empty state with a fully configured environment — still
no call, state unchanged. -/
theorem c7_witness :
    emptyState.playlist = [] ∧
    analyzePlaylist emptyState sampleEnv = (emptyState, false) :=
  ⟨rfl, c7_analyze_empty_noop emptyState sampleEnv rfl⟩

/-- C8 counterexample: with a non-empty playlist, the missing-credential path
and the failed-call path set two DIFFERENT fallback texts, refuting "the same
fixed message in both cases". -/
theorem c8_counterexample :
    (analyzePlaylist sampleState
        { apiKey := none, callResult := Except.error "net down" }).1.aiAnalysis ≠
    (analyzePlaylist sampleState
        { apiKey := some "k", callResult := Except.error "net down" }).1.aiAnalysis := by
  decide

/-- C8 (amended): a missing credential or a failed AI call is caught and the
displayed summary is replaced with a fixed fallback message, but the message
is case-specific: the missing-credential text (with no network call) in one
case, the connection-error text in the other; in both cases the analyzing
flag is cleared and the handler returns normally (no retry, no crash). -/
theorem c8_fallback_messages (s : AppState) (k e : String)
    (r : Except String String) (hne : s.playlist ≠ []) :
    (analyzePlaylist s { apiKey := none, callResult := r }).1.aiAnalysis =
      apiKeyMissingMsg ∧
    (analyzePlaylist s { apiKey := none, callResult := r }).2 = false ∧
    (analyzePlaylist s { apiKey := none, callResult := r }).1.isAnalyzing =
      false ∧
    (analyzePlaylist s
        { apiKey := some k, callResult := Except.error e }).1.aiAnalysis =
      connectionErrorMsg ∧
    (analyzePlaylist s
        { apiKey := some k, callResult := Except.error e }).1.isAnalyzing =
      false := by
  have hlen : ¬ s.playlist.length = 0 := by
    intro h0
    exact hne (List.length_eq_zero.mp h0)
  unfold analyzePlaylist
  simp [if_neg hlen, hne]

/-- C8 witness: the amended fallback behaviour at the concrete three-track
state. -/
theorem c8_witness :
    sampleState.playlist ≠ [] ∧
    ((analyzePlaylist sampleState
        { apiKey := none, callResult := Except.ok "x" }).1.aiAnalysis =
      apiKeyMissingMsg ∧
     (analyzePlaylist sampleState
        { apiKey := none, callResult := Except.ok "x" }).2 = false ∧
     (analyzePlaylist sampleState
        { apiKey := none, callResult := Except.ok "x" }).1.isAnalyzing =
      false ∧
     (analyzePlaylist sampleState
        { apiKey := some "k", callResult := Except.error "e" }).1.aiAnalysis =
      connectionErrorMsg ∧
     (analyzePlaylist sampleState
        { apiKey := some "k", callResult := Except.error "e" }).1.isAnalyzing =
      false) :=
  ⟨by decide, c8_fallback_messages sampleState "k" "e" (Except.ok "x") (by decide)⟩

/-- C9 counterexample: bin 127 lies inside the frequency snapshot
(`frequencyBinCount = 128`) but inside no bar's partition: with 120 bars and
`step = Math.floor(128 / 120) = 1` the loop reads only bins 0-119, so the
partitions do not cover every bin of the snapshot. -/
theorem c9_counterexample : 127 < frequencyBinCount ∧ ¬ binRead 127 := by
  refine ⟨by decide, ?_⟩
  rintro ⟨i, hi, j, hj, hb⟩
  have hv : vstep = 1 := rfl
  have hbars : bars = 120 := rfl
  rw [hv] at hj hb
  rw [hbars] at hi
  omega

/-- C9 (amended): per animation frame while playing, the 120 bars partition
only a prefix of the snapshot: a bin is read by the bar loop iff it lies
below `bars * step = 120`, so the last 8 of the 128 snapshot bins are never
read; each bar's value is the arithmetic mean of its size-`step` partition
(the accumulation loop divided by `step` equals sum over the partition
divided by its size), and that value maps to the bar length
`value / 255 * 100` and to the hue/saturation/lightness triple
`(i / bars * 360, 80 + value / 255 * 20, 50 + value / 255 * 10)`. -/
theorem c9_bar_partition (data : Nat → ℚ) (i : Nat) :
    (∀ b, binRead b ↔ b < bars * vstep) ∧
    bars * vstep = 120 ∧ frequencyBinCount = 128 ∧
    barValue data i =
      (((List.range vstep).map (fun j => data (i * vstep + j))).sum) /
        (((List.range vstep).length : Nat) : ℚ) ∧
    barHeight data i = barValue data i / 255 * 100 ∧
    hue i = (i : ℚ) / bars * 360 ∧
    saturationOf data i = 80 + barValue data i / 255 * 20 ∧
    lightnessOf data i = 50 + barValue data i / 255 * 10 := by
  have hv : vstep = 1 := rfl
  have hbars : bars = 120 := rfl
  refine ⟨?_, rfl, rfl, ?_, rfl, rfl, rfl, rfl⟩
  · intro b
    constructor
    · rintro ⟨ii, hii, j, hj, rfl⟩
      rw [hv] at hj ⊢
      rw [hbars] at hii ⊢
      omega
    · intro hb
      rw [hv, hbars] at hb
      refine ⟨b, by omega, 0, by rw [hv]; omega, by rw [hv]; omega⟩
  · unfold barValue
    rw [List.sum_eq_foldl, List.foldl_map, List.length_range]

theorem isPlaying_playTrack (s : AppState) (ok : Bool) {index : Int}
    (h0 : 0 ≤ index) (hlt : index < (s.playlist.length : Int)) :
    (playTrack s ok index).isPlaying = ok := by
  rw [playTrack_of_inRange s ok h0 hlt]

theorem loadedTrack_playTrack (s : AppState) (ok : Bool) {index : Int}
    (h0 : 0 ≤ index) (hlt : index < (s.playlist.length : Int)) :
    (playTrack s ok index).loadedTrack = s.playlist[index.toNat]? := by
  rw [playTrack_of_inRange s ok h0 hlt]

theorem tmod_neg_two_add (n : Int) (hn : 1 ≤ n) :
    (-1 - 1 + n).tmod n = (n - 2) % n := by
  by_cases h1 : n = 1
  · subst h1; decide
  · have heq : -1 - 1 + n = n - 2 := by ring
    rw [heq, Int.tmod_eq_emod (by omega) (by omega)]

/-- C10: with a non-empty playlist of length `n`, no active track (sentinel
`-1`) and shuffle off, `previous` is not a no-op: it loads the track at index
`(n - 2) mod n` (the second-to-last track when `n ≥ 2`) and plays it, while
`next` loads and plays the track at index 0. -/
theorem c10_nav_from_sentinel (s : AppState) (r : Nat)
    (hne : s.playlist ≠ [])
    (hci : s.currentTrackIndex = -1)
    (hsh : s.isShuffle = false) :
    (prevTrack s true).currentTrackIndex =
      ((s.playlist.length : Int) - 2) % (s.playlist.length : Int) ∧
    (prevTrack s true).isPlaying = true ∧
    (prevTrack s true).loadedTrack =
      s.playlist[(((s.playlist.length : Int) - 2) %
        (s.playlist.length : Int)).toNat]? ∧
    (prevTrack s true).loadedTrack ≠ none ∧
    (nextTrack s true r).currentTrackIndex = 0 ∧
    (nextTrack s true r).isPlaying = true ∧
    (nextTrack s true r).loadedTrack = s.playlist[0]? := by
  have hn : s.playlist.length ≠ 0 := by
    intro h0
    exact hne (List.length_eq_zero.mp h0)
  have hn1 : (1 : Int) ≤ (s.playlist.length : Int) := by omega
  have hw0 : 0 ≤ ((s.playlist.length : Int) - 2) % (s.playlist.length : Int) :=
    Int.emod_nonneg _ (by omega)
  have hwlt : ((s.playlist.length : Int) - 2) % (s.playlist.length : Int) <
      (s.playlist.length : Int) :=
    Int.emod_lt_of_pos _ (by omega)
  have hprev : prevTrack s true =
      playTrack s true
        (((s.playlist.length : Int) - 2) % (s.playlist.length : Int)) := by
    rw [prevTrack_nonempty s true hn, hci, tmod_neg_two_add _ hn1]
  have hnext : nextTrack s true r = playTrack s true 0 := by
    rw [nextTrack_noShuffle s true r hsh hn, hci]
    norm_num
  rw [hprev, hnext]
  refine ⟨currentTrackIndex_playTrack s true hw0 hwlt,
    isPlaying_playTrack s true hw0 hwlt,
    loadedTrack_playTrack s true hw0 hwlt, ?_,
    currentTrackIndex_playTrack s true le_rfl (by omega),
    isPlaying_playTrack s true le_rfl (by omega), ?_⟩
  · rw [loadedTrack_playTrack s true hw0 hwlt]
    rw [List.getElem?_eq_getElem (by omega)]
    simp
  · rw [loadedTrack_playTrack s true le_rfl (by omega)]
    rfl

/-- A concrete state with two tracks and no active track. -/
def sentinelState : AppState :=
  { sampleState with
    playlist := [sampleTrack 0, sampleTrack 1],
    currentTrackIndex := -1, isPlaying := false,
    audioSrc := none, loadedTrack := none, outstandingUrls := [] }

/-- C10 witness: with two tracks and no active track, `previous` loads and
plays index 0 (= (2-2) mod 2) and `next` loads and plays index 0. -/
theorem c10_witness :
    sentinelState.playlist ≠ [] ∧
    sentinelState.currentTrackIndex = -1 ∧
    sentinelState.isShuffle = false ∧
    ((prevTrack sentinelState true).currentTrackIndex =
      ((sentinelState.playlist.length : Int) - 2) %
        (sentinelState.playlist.length : Int) ∧
     (prevTrack sentinelState true).isPlaying = true ∧
     (prevTrack sentinelState true).loadedTrack =
      sentinelState.playlist[(((sentinelState.playlist.length : Int) - 2) %
        (sentinelState.playlist.length : Int)).toNat]? ∧
     (prevTrack sentinelState true).loadedTrack ≠ none ∧
     (nextTrack sentinelState true 0).currentTrackIndex = 0 ∧
     (nextTrack sentinelState true 0).isPlaying = true ∧
     (nextTrack sentinelState true 0).loadedTrack =
       sentinelState.playlist[0]?) :=
  ⟨by decide, by decide, rfl,
   c10_nav_from_sentinel sentinelState 0 (by decide) (by decide) rfl⟩
